import Mathlib

/-!
Verification of the pikiwidb network runtime (event loop, reactor, TCP
connection layer).  The definitions below embed the relevant functions of
src/net as executable Lean definitions; the theorems after them settle the
specified properties.  Machine integers are modelled as Int with explicit
two's complement wrap where overflow matters.
-/

namespace PikiwidbNet

/-- Connection states of TcpObject (tcp_obj.h, enum class State). -/
inductive State
  | kNone
  | kConnecting
  | kConnected
  | kDisconnected
  | kFailed
deriving DecidableEq, Repr, Fintype

/-! ## Receive consume loop (TcpObject::OnRecvData, tcp_obj.cc) -/

/-- Result of the while-loop in TcpObject::OnRecvData: the final value of
total_consumed, the error flag, and the list of values returned by the
successive on_message_ calls (in call order). -/
structure ConsumeResult where
  total : Nat
  error : Bool
  trace : List Int
deriving DecidableEq, Repr

/-- Embedding of the while-loop of TcpObject::OnRecvData.  onMessage models
the user callback on_message_: it receives the current offset
(total_consumed) and the remaining length (len - total_consumed) and returns
the consumed count.  Source: while (!error && total_consumed < len)
{ int consumed = on_message_(...); if (consumed > 0) total_consumed +=
consumed; else { if (consumed < 0) error = true; break; } }. -/
def consumeLoop (onMessage : Nat → Nat → Int) (len total : Nat) : ConsumeResult :=
  if _h : total < len then
    if _hc : 0 < onMessage total (len - total) then
      let r := consumeLoop onMessage len (total + (onMessage total (len - total)).toNat)
      ⟨r.total, r.error, onMessage total (len - total) :: r.trace⟩
    else if onMessage total (len - total) < 0 then ⟨total, true, [onMessage total (len - total)]⟩
    else ⟨total, false, [onMessage total (len - total)]⟩
  else ⟨total, false, []⟩
termination_by len - total
decreasing_by
  have : 0 < (onMessage total (len - total)).toNat := by omega
  omega

/-- Outcome of one receive batch: the connection state afterwards, the
number of bytes drained from the input buffer, and the on_message call
trace. -/
structure RecvOutcome where
  state : State
  drained : Nat
  trace : List Int
deriving DecidableEq, Repr

/-- Embedding of TcpObject::OnRecvData after the evbuffer_peek: run the
consume loop from total_consumed = 0, drain total_consumed bytes from the
input buffer (evbuffer_drain runs only when total_consumed > 0, but
draining 0 bytes is the identity, so drained = total_consumed either way),
and if error then HandleDisconnect, which sets the state to
kDisconnected. -/
def onRecvData (st : State) (onMessage : Nat → Nat → Int) (len : Nat) : RecvOutcome :=
  let r := consumeLoop onMessage len 0
  ⟨if r.error then State.kDisconnected else st, r.total, r.trace⟩

/-- Concrete on_message callback used as a witness input: consume 3 bytes on
the first call, then report a fatal framing error (scenario: a callback that
accepts 3 bytes of a 10-byte payload and then returns -1). -/
def cbFatalAfter3 : Nat → Nat → Int := fun total _ => if total = 0 then 3 else -1

/-! ## Connection state machine (TcpObject, tcp_obj.cc) -/

/-- User callbacks a TcpObject can deliver (tcp_obj.h).  onMessage is the
framing callback on_message_, which OnRecvData invokes with no state guard
whenever readable data arrives. -/
inductive Callback
  | onNewConn
  | onDisconnect
  | onConnectFail
  | onMessage
deriving DecidableEq, Repr, Fintype

/-- Connection-machine state: the TcpObject state_ field plus whether the
object is currently registered in its loop's object map. -/
structure Conn where
  state : State
  registered : Bool
deriving DecidableEq, Repr, Fintype

/-- Events that drive a TcpObject.  osEvent carries the two bufferevent
flags the code inspects (BEV_EVENT_CONNECTED and BEV_EVENT_EOF); recvBatch
carries the error flag computed by the consume loop of OnRecvData;
activeClose is the destroy closure of ActiveClose running on the loop
thread. -/
inductive ConnEvent
  | connectStart
  | accept
  | osEvent (connected eof : Bool)
  | recvBatch (err : Bool)
  | activeClose
deriving DecidableEq, Repr, Fintype

/-- Embedding of TcpObject::HandleConnect.  The assert on the entry state is
modelled as a guard: an assertion failure aborts the process, so no
transition or callback happens (none).  On success the state becomes
kConnected and on_new_conn_ is invoked. -/
def handleConnect (c : Conn) : Option (Conn × List Callback) :=
  if c.state = State.kNone ∨ c.state = State.kConnecting then
    some ({ c with state := State.kConnected }, [Callback.onNewConn])
  else none

/-- Embedding of TcpObject::HandleConnectFailed: assert kConnecting, set
kFailed, invoke on_fail_, then Unregister from the loop. -/
def handleConnectFailed (c : Conn) : Option (Conn × List Callback) :=
  if c.state = State.kConnecting then
    some (⟨State.kFailed, false⟩, [Callback.onConnectFail])
  else none

/-- Embedding of TcpObject::HandleDisconnect: assert kConnected, set
kDisconnected, invoke on_disconnect_, then Unregister from the loop. -/
def handleDisconnect (c : Conn) : Option (Conn × List Callback) :=
  if c.state = State.kConnected then
    some (⟨State.kDisconnected, false⟩, [Callback.onDisconnect])
  else none

/-- One step of the TcpObject machine.
connectStart: TcpObject::Connect — only from kNone does it register (mask 0)
and move to kConnecting; in any other state it logs and returns false with no
transition.
accept: the listener's create_conn closure — OnAccept calls HandleConnect,
then the closure registers the object in the loop.
osEvent: TcpObject::OnEvent — in kConnecting the BEV_EVENT_CONNECTED flag
selects HandleConnect vs HandleConnectFailed; in kConnected only
BEV_EVENT_EOF triggers HandleDisconnect; every other state just logs.
recvBatch: TcpObject::OnRecvData — on_message_ is invoked with no state_
guard (the read callback installed by HandleConnect stays
bufferevent-enabled until the destructor; neither HandleDisconnect nor the
mask-0 Unregister disables it), so data arriving while the user still holds
the object delivers on_message in any state; a batch whose consume loop
ended in error then calls HandleDisconnect.
activeClose: the destroy closure — HandleDisconnect only if still
kConnected. -/
def step (c : Conn) : ConnEvent → Option (Conn × List Callback)
  | .connectStart =>
    if c.state = State.kNone then some (⟨State.kConnecting, true⟩, []) else some (c, [])
  | .accept =>
    (handleConnect c).map (fun r => ({ r.1 with registered := true }, r.2))
  | .osEvent connected eof =>
    match c.state with
    | State.kConnecting => if connected then handleConnect c else handleConnectFailed c
    | State.kConnected => if eof then handleDisconnect c else some (c, [])
    | _ => some (c, [])
  | .recvBatch err =>
    if err then (handleDisconnect c).map (fun r => (r.1, Callback.onMessage :: r.2))
    else some (c, [Callback.onMessage])
  | .activeClose => if c.state = State.kConnected then handleDisconnect c else some (c, [])

/-- Run a list of events; an assertion failure (none) aborts the run, so no
further transitions or callbacks occur. -/
def run (c : Conn) : List ConnEvent → Conn × List Callback
  | [] => (c, [])
  | e :: es =>
    match step c e with
    | none => (c, [])
    | some (c', cbs) =>
      let r := run c' es
      (r.1, cbs ++ r.2)

/-- Terminal connection states (absorbing per the state machine). -/
def isTerminal (s : State) : Bool :=
  s = State.kDisconnected ∨ s = State.kFailed

/-- Number of terminal user callbacks (on_disconnect / on_fail) in a
callback list. -/
def termCbCount (cbs : List Callback) : Nat :=
  cbs.count Callback.onDisconnect + cbs.count Callback.onConnectFail

/-- Initial connection: freshly constructed TcpObject (state kNone, not yet
registered). -/
def initConn : Conn := ⟨State.kNone, false⟩

/-- Boolean form of the deregistration invariant: a terminal connection is
not registered. -/
def connInvOk (c : Conn) : Bool :=
  !isTerminal c.state || !c.registered

/-- Decidable per-step callback budget check (see step_cb_budget). -/
def stepBudgetOk (c : Conn) (e : ConnEvent) : Bool :=
  match step c e with
  | none => true
  | some r =>
    decide (termCbCount r.2 + (if isTerminal r.1.state = true then 0 else 1)
      ≤ (if isTerminal c.state = true then 0 else 1))

/-- Decidable per-step preservation check of connInvOk (see
step_registered_inv). -/
def stepRegInvOk (c : Conn) (e : ConnEvent) : Bool :=
  !connInvOk c ||
    (match step c e with
     | none => true
     | some r => connInvOk r.1)

/-! ## Task inbox and Execute (EventLoop::Execute, event_loop.h; EventLoop::Run, event_loop.cc) -/

/-- Pending closure: the result of std::bind(f, args...) packaged into the
task, modelled as a unary function with its bound argument. -/
structure PTask where
  fn : Nat → Nat
  arg : Nat

/-- Future returned by Execute: either already fulfilled with a value
(on-loop call) or tied to the inbox position of the pending task. -/
inductive ExecResult
  | ready (v : Nat)
  | pending (idx : Nat)
deriving DecidableEq, Repr

/-- Cross-thread visible loop state: the tasks_ inbox and whether the
notifier has been kicked. -/
structure LoopState where
  tasks : List PTask
  notified : Bool

/-- Embedding of EventLoop::Execute: on the loop's own thread the packaged
task runs synchronously and the returned future is already fulfilled;
otherwise the task is appended to tasks_ under the mutex and
notifier_->Notify() is called. -/
def execute (inLoop : Bool) (f : Nat → Nat) (x : Nat) (ls : LoopState) :
    LoopState × ExecResult :=
  if inLoop then (ls, .ready (f x))
  else ({ tasks := ls.tasks ++ [⟨f, x⟩], notified := true }, .pending ls.tasks.length)

/-- Observable actions of one EventLoop::Run iteration. -/
inductive LoopAction
  | ranTask (v : Nat)
  | polled
deriving DecidableEq, Repr

/-- Embedding of one iteration of the while-loop in EventLoop::Run: if
task_mutex_.try_lock() succeeds, swap the inbox out and run every task in
FIFO order, then call reactor_->Poll(); if try_lock fails, only poll. -/
def runIteration (lockAcquired : Bool) (ls : LoopState) : LoopState × List LoopAction :=
  if lockAcquired then
    ({ tasks := [], notified := ls.notified },
     (ls.tasks.map (fun t => LoopAction.ranTask (t.fn t.arg))) ++ [LoopAction.polled])
  else (ls, [LoopAction.polled])

/-- Value that the future tied to inbox position idx resolves to once the
drain has run that task. -/
def futureValueAfterDrain (ls : LoopState) (idx : Nat) : Option Nat :=
  (ls.tasks[idx]?).map (fun t => t.fn t.arg)

/-! ## Reactor timers and the off-thread schedule/cancel race
(LibeventReactor::Schedule/Cancel, libevent_reactor.cc; EventLoop::ScheduleLater/Cancel) -/

/-- Reactor timer record (LibeventReactor::Timer): period and the repeat
flag; the id is the association key of timers_. -/
structure RTimer where
  period : Int
  repeatFlag : Bool
deriving DecidableEq, Repr

/-- Association map timers_ as a list keyed by timer id. -/
abbrev Timers := List (Int × RTimer)

/-- Membership test on timers_ (timers_.find(id) != end()). -/
def timersContains (ts : Timers) (id : Int) : Bool :=
  ts.any (fun p => p.1 = id)

/-- Embedding of timers_[id] = timer: overwrite the entry if present,
otherwise insert. -/
def timersSet (ts : Timers) (id : Int) (t : RTimer) : Timers :=
  if timersContains ts id then ts.map (fun p => if p.1 = id then (id, t) else p)
  else ts ++ [(id, t)]

/-- Embedding of LibeventReactor::Cancel: erase and return true if the id is
present, otherwise false. -/
def reactorCancel (ts : Timers) (id : Int) : Bool × Timers :=
  if timersContains ts id then (true, ts.filter (fun p => p.1 ≠ id))
  else (false, ts)

/-- Embedding of LibeventReactor::Schedule: create the timer record and
store it under its id. -/
def reactorSchedule (ts : Timers) (id : Int) (periodMs : Int) (repeatFlag : Bool) : Timers :=
  timersSet ts id ⟨periodMs, repeatFlag⟩

/-- Tasks that EventLoop::ScheduleLater / ScheduleRepeatedly / Cancel post
to the inbox when called off-thread. -/
inductive LoopTask
  | armLater (id : Int) (delayMs : Int)
  | armRepeated (id : Int) (periodMs : Int)
  | cancelTimer (id : Int)
deriving DecidableEq, Repr

/-- Run one posted task against the reactor timers; cancelTimer produces the
boolean its future resolves to. -/
def runLoopTask (ts : Timers) : LoopTask → Timers × Option Bool
  | .armLater id d => (reactorSchedule ts id d false, none)
  | .armRepeated id p => (reactorSchedule ts id p true, none)
  | .cancelTimer id =>
    let r := reactorCancel ts id
    (r.2, some r.1)

/-- Drain the inbox in FIFO order (the for-loop over funcs in
EventLoop::Run); the reactor does not poll, so no timer fires during the
drain. -/
def drainLoopTasks (ts : Timers) : List LoopTask → Timers × List (Option Bool)
  | [] => (ts, [])
  | t :: rest =>
    let r := runLoopTask ts t
    let r2 := drainLoopTasks r.1 rest
    (r2.1, r.2 :: r2.2)

/-- Timer ids a reactor poll can fire: only armed timers (timers_ keys) can
have their callback invoked by event_base_loop. -/
def pollableIds (ts : Timers) : List Int :=
  ts.map (fun p => p.1)

/-! ## Send path (TcpObject::SendPacket, tcp_obj.cc) -/

/-- Embedding of SendPacket(const void*, size_t): reject (false, log) in any
state other than kConnected; a null/empty payload returns true without
touching the buffer; otherwise evbuffer_add appends the bytes to the output
buffer. -/
def sendPacket (st : State) (data : List Nat) (output : List Nat) : Bool × List Nat :=
  if st ≠ State.kConnected then (false, output)
  else if data.length = 0 then (true, output)
  else (true, output ++ data)

/-- Embedding of SendPacket(const evbuffer_iovec*, int): same contract, the
payload being the concatenation of the io vectors (evbuffer_add_iovec appends the flattened vectors);
nvecs <= 0 returns true without touching the buffer. -/
def sendPacketIovec (st : State) (iovecs : List (List Nat)) (output : List Nat) :
    Bool × List Nat :=
  if st ≠ State.kConnected then (false, output)
  else if iovecs.length = 0 then (true, output)
  else (true, output ++ iovecs.flatten)

/-! ## Reactor object registration (LibeventReactor::Register, libevent_reactor.cc) -/

/-- Per-object registration record (LibeventReactor::Object): which OS
watches (libevent read/write events) are installed. -/
structure RObject where
  hasReadWatch : Bool
  hasWriteWatch : Bool
deriving DecidableEq, Repr

/-- Event mask bit for read readiness.  Modelled from the spec: event_obj.h
(which defines the kEventRead/kEventWrite constants) is not in src; the spec
describes the mask as a bitmask over {read, write}, modelled here as bits 1
and 2. -/
def kEventRead : Nat := 1

/-- Event mask bit for write readiness (see kEventRead). -/
def kEventWrite : Nat := 2

/-- Registration records map of the reactor (objects_), keyed by the
object's unique id.  The source asserts id >= 0 at entry; the theorems only
use non-negative ids. -/
abbrev RObjects := List (Int × RObject)

/-- Membership test on the reactor's objects_ map. -/
def robjectsContains (objs : RObjects) (id : Int) : Bool :=
  objs.any (fun p => p.1 = id)

/-- Embedding of LibeventReactor::Register: events == 0 returns true
immediately (the object manages events by itself) without touching objects_;
otherwise fail if the id is already present, else install the watches
requested by the mask and insert the record. -/
def reactorRegister (objs : RObjects) (id : Int) (events : Nat) : Bool × RObjects :=
  if events = 0 then (true, objs)
  else if robjectsContains objs id then (false, objs)
  else (true, objs ++ [(id, ⟨(events &&& kEventRead) ≠ 0, (events &&& kEventWrite) ≠ 0⟩)])

/-! ## Timer facade clamping (EventLoop::ScheduleLater/ScheduleRepeatedly,
event_loop.h; LibeventReactor::Schedule, libevent_reactor.cc) -/

/-- Two's complement wrap to a signed 32-bit value (type of
obj_id_generator_, std::atomic<int>). -/
def wrap32 (n : Int) : Int := (n + 2 ^ 31) % 2 ^ 32 - 2 ^ 31

/-- Two's complement wrap to a signed 64-bit value (TimerId width; reactor.h
is not in src, the spec describes timer ids as a process-wide monotonic
counter, modelled as a signed 64-bit integer). -/
def wrap64 (n : Int) : Int := (n + 2 ^ 63) % 2 ^ 64 - 2 ^ 63

/-- Truncating duration_cast<milliseconds> applied to a duration given in
microseconds. -/
def durationCastMs (us : Nat) : Nat := us / 1000

/-- Embedding of std::max(milliseconds(1), duration_cast<milliseconds>(d))
in the chrono-duration overloads of ScheduleLater / ScheduleRepeatedly. -/
def clampedMs (us : Nat) : Nat := max 1 (durationCastMs us)

/-- Embedding of the timeval set up by LibeventReactor::Schedule:
tv_sec = period_ms / 1000 and tv_usec = 1000 * (period_ms % 1000), with C
truncated division. -/
def scheduleTimeout (ms : Int) : Int × Int := (ms.tdiv 1000, 1000 * (ms.tmod 1000))

/-- Total armed timeout in microseconds. -/
def timeoutTotalUs (t : Int × Int) : Int := t.1 * 1000000 + t.2

/-- Delay armed by the int-millisecond overload of ScheduleLater: the value
is forwarded to the reactor unmodified. -/
def loopScheduleLaterMs (delayMs : Int) : Int × Int := scheduleTimeout delayMs

/-- Delay armed by the chrono-duration overload of ScheduleLater: the
clamped millisecond count is narrowed to a signed 32-bit int
(int ms = static_cast<int>(delay_ms.count())) before being forwarded to the
int overload. -/
def loopScheduleLaterDur (us : Nat) : Int × Int :=
  loopScheduleLaterMs (wrap32 (clampedMs us))

/-- Period armed by the int-millisecond overload of ScheduleRepeatedly: the
value is forwarded to the reactor unmodified. -/
def loopScheduleRepeatedlyMs (periodMs : Int) : Int × Int := scheduleTimeout periodMs

/-- Period armed by the chrono-duration overload of ScheduleRepeatedly: the
clamped millisecond count is narrowed to a signed 32-bit int
(int ms = static_cast<int>(period_ms.count())) before being forwarded to the
int overload. -/
def loopScheduleRepeatedlyDur (us : Nat) : Int × Int :=
  loopScheduleRepeatedlyMs (wrap32 (clampedMs us))

/-! ## Identity generation (EventLoop::Register, event_loop.cc;
EventLoop::ScheduleLater/ScheduleRepeatedly, event_loop.h) -/

/-- Embedding of the do-while id allocation in EventLoop::Register:
id = obj_id_generator_.fetch_add(1) + 1; if (id < 0) the counter is stored
back to 0; loop while id < 0 or objects_.count(id) != 0.  The fuel bounds
the number of iterations (the C loop has no such bound); c is the current
counter value; returns (counter afterwards, allocated id). -/
def allocObjId : Nat → Int → List Int → Option (Int × Int)
  | 0, _, _ => none
  | fuel + 1, c, inUse =>
    let id := wrap32 (c + 1)
    let c' := if id < 0 then 0 else id
    if id < 0 ∨ id ∈ inUse then allocObjId fuel c' inUse
    else some (c', id)

/-- Embedding of timer id allocation (ScheduleLater / ScheduleRepeatedly):
id = timerid_generator_.fetch_add(1) + 1, with no wrap reset and no check
against ids in use; returns (counter afterwards, allocated id). -/
def allocTimerId (c : Int) : Int × Int := (wrap64 (c + 1), wrap64 (c + 1))

/-! ## Idle timeout (TcpObject::SetIdleTimeout / CheckIdleTimeout, tcp_obj.cc) -/

/-- Embedding of TcpObject::CheckIdleTimeout: true iff
elapsed > idle_timeout_ms_ (strict comparison in the source). -/
def checkIdleTimeout (elapsedMs idleTimeoutMs : Int) : Bool :=
  idleTimeoutMs < elapsedMs

/-- Idle supervision fields of a TcpObject: the idle timer id (-1 when none)
and the configured threshold. -/
structure IdleConfig where
  idleTimer : Int
  idleTimeoutMs : Int
deriving DecidableEq, Repr

/-- Embedding of TcpObject::SetIdleTimeout: timeout_ms <= 0 returns with no
effect; otherwise store the threshold, cancel the previous idle timer when
one exists, and arm a repeating timer with period 100 ms whose id becomes
idle_timer_.  Returns (new config, cancelled prior timer id if any, period
of the armed repeating timer if one was armed). -/
def setIdleTimeout (cfg : IdleConfig) (timeoutMs : Int) (freshTimerId : Int) :
    IdleConfig × Option Int × Option Int :=
  if timeoutMs ≤ 0 then (cfg, none, none)
  else (⟨freshTimerId, timeoutMs⟩,
        if cfg.idleTimer ≠ -1 then some cfg.idleTimer else none,
        some 100)

/-- Embedding of the repeating timer closure in SetIdleTimeout: lock the
weak reference (alive), and if the connection is alive and CheckIdleTimeout
holds, invoke ActiveClose(false).  Returns whether ActiveClose is
invoked. -/
def idleTimerFire (alive : Bool) (elapsedMs idleTimeoutMs : Int) : Bool :=
  alive && checkIdleTimeout elapsedMs idleTimeoutMs

/-! ## Connect failure path (EventLoop::Connect, event_loop.cc;
TcpObject::Connect, tcp_obj.cc) -/

/-- Environment outcomes of the OS-level steps of TcpObject::Connect:
whether bufferevent_socket_new succeeds, whether bufferevent_socket_connect
returns 0, and whether the loop still has a reactor (EventLoop::Register
with event mask 0 fails only when reactor_ is null, since
LibeventReactor::Register with mask 0 always returns true). -/
structure ConnectEnv where
  bevOk : Bool
  connectOk : Bool
  reactorAlive : Bool
deriving DecidableEq, Repr

/-- Embedding of TcpObject::Connect: each failure point returns false before
the object is inserted into the loop's registry; on success the object is
registered (mask 0) and moves to kConnecting.  Returns (result, state
afterwards, loop registry ids afterwards). -/
def tcpConnect (st : State) (env : ConnectEnv) (objs : List Int) (freshId : Int) :
    Bool × State × List Int :=
  if st ≠ State.kNone then (false, st, objs)
  else if !env.bevOk then (false, st, objs)
  else if !env.connectOk then (false, st, objs)
  else if !env.reactorAlive then (false, st, objs)
  else (true, State.kConnecting, objs ++ [freshId])

/-- Embedding of EventLoop::Connect: construct the TcpObject (state kNone),
set the callbacks, call Connect; on failure reset the shared_ptr so the
returned handle is null (none).  Returns (handle, loop registry ids
afterwards). -/
def eventLoopConnect (env : ConnectEnv) (objs : List Int) (freshId : Int) :
    Option State × List Int :=
  let r := tcpConnect State.kNone env objs freshId
  (if r.1 then some r.2.1 else none, r.2.2)

/-! ## Theorems: receive consume loop (C1) -/

/-- Sum of the positive entries of the trace equals the bytes gained by the
loop beyond the starting offset. -/
theorem consumeLoop_total_eq_sum_pos (f : Nat → Nat → Int) (len total : Nat) :
    ((consumeLoop f len total).trace.filter (fun c => 0 < c)).sum
      = ((consumeLoop f len total).total : Int) - (total : Int) := by
  induction total using consumeLoop.induct f len with
  | case1 x hlt hc ih =>
    rw [consumeLoop]
    simp only [dif_pos hlt, dif_pos hc]
    simp only [List.filter_cons, decide_eq_true_eq, if_pos hc, List.sum_cons]
    rw [ih]
    have h0 : (0 : Int) ≤ f x (len - x) := le_of_lt hc
    push_cast
    omega
  | case2 x hlt hc hneg =>
    rw [consumeLoop]
    simp only [dif_pos hlt, dif_neg hc, if_pos hneg]
    simp [hc]
  | case3 x hlt hc hneg =>
    rw [consumeLoop]
    simp only [dif_pos hlt, dif_neg hc, if_neg hneg]
    simp [hc]
  | case4 x hlt =>
    rw [consumeLoop]
    simp [hlt]

/-- Every trace entry except possibly the last one is positive: the loop
keeps calling on_message exactly while it returns positive counts, and any
non-positive return ends the batch. -/
theorem consumeLoop_dropLast_pos (f : Nat → Nat → Int) (len total : Nat) :
    ∀ c ∈ (consumeLoop f len total).trace.dropLast, 0 < c := by
  induction total using consumeLoop.induct f len with
  | case1 x hlt hc ih =>
    rw [consumeLoop]
    simp only [dif_pos hlt, dif_pos hc]
    intro c hcmem
    rcases hr : (consumeLoop f len (x + (f x (len - x)).toNat)).trace with _ | ⟨b, bs⟩
    · rw [hr] at hcmem
      simp at hcmem
    · rw [hr, List.dropLast_cons₂] at hcmem
      rcases List.mem_cons.mp hcmem with h1 | h2
      · exact h1 ▸ hc
      · exact ih c (by rw [hr]; exact h2)
  | case2 x hlt hc hneg =>
    rw [consumeLoop]
    simp [hlt, hc, hneg]
  | case3 x hlt hc hneg =>
    rw [consumeLoop]
    simp [hlt, hc, hneg]
  | case4 x hlt =>
    rw [consumeLoop]
    simp [hlt]

/-- The error flag is set exactly when the last on_message return value was
negative. -/
theorem consumeLoop_error_iff (f : Nat → Nat → Int) (len total : Nat) :
    (consumeLoop f len total).error = true
      ↔ ∃ c, (consumeLoop f len total).trace.getLast? = some c ∧ c < 0 := by
  induction total using consumeLoop.induct f len with
  | case1 x hlt hc ih =>
    rw [consumeLoop]
    simp only [dif_pos hlt, dif_pos hc]
    rcases hr : (consumeLoop f len (x + (f x (len - x)).toNat)).trace with _ | ⟨a, as⟩
    · constructor
      · intro he
        exfalso
        rcases ih.mp he with ⟨c, hc1, _⟩
        rw [hr] at hc1
        simp at hc1
      · intro ⟨c, hc1, hc2⟩
        simp only [hr, List.getLast?_singleton] at hc1
        cases hc1
        omega
    · rw [show ((⟨(consumeLoop f len (x + (f x (len - x)).toNat)).total,
          (consumeLoop f len (x + (f x (len - x)).toNat)).error,
          f x (len - x) :: (consumeLoop f len (x + (f x (len - x)).toNat)).trace⟩ :
            ConsumeResult)).error
            = (consumeLoop f len (x + (f x (len - x)).toNat)).error from rfl]
      rw [ih, hr]
      constructor
      · intro ⟨c, hc1, hc2⟩
        exact ⟨c, by simpa using hc1, hc2⟩
      · intro ⟨c, hc1, hc2⟩
        refine ⟨c, ?_, hc2⟩
        simpa using hc1
  | case2 x hlt hc hneg =>
    rw [consumeLoop]
    simp [hlt, hc, hneg]
  | case3 x hlt hc hneg =>
    rw [consumeLoop]
    simp only [dif_pos hlt, dif_neg hc, if_neg hneg]
    simp
    omega
  | case4 x hlt =>
    rw [consumeLoop]
    simp [hlt]

/-- C1: for every receive batch delivered to a connection, the consume loop
advances by consumed while consumed > 0 (every call before the last returned
a positive count), stops on a non-positive return, records a fatal framing
error and transitions the connection to kDisconnected exactly when the last
on_message return was negative, and exactly the sum of the positive consumed
values is drained from the input buffer. -/
theorem claim_C1_recv_batch (f : Nat → Nat → Int) (len : Nat) :
    (((onRecvData State.kConnected f len).trace.filter (fun c => 0 < c)).sum
        = ((onRecvData State.kConnected f len).drained : Int))
    ∧ (∀ c ∈ (onRecvData State.kConnected f len).trace.dropLast, 0 < c)
    ∧ ((onRecvData State.kConnected f len).state = State.kDisconnected
        ↔ ∃ c, (onRecvData State.kConnected f len).trace.getLast? = some c ∧ c < 0) := by
  refine ⟨?_, ?_, ?_⟩
  · have h := consumeLoop_total_eq_sum_pos f len 0
    simpa [onRecvData] using h
  · have h := consumeLoop_dropLast_pos f len 0
    simpa [onRecvData] using h
  · have h := consumeLoop_error_iff f len 0
    rcases he : (consumeLoop f len 0).error with _ | _
    · rw [he] at h
      simp only [onRecvData, he, if_neg (Bool.false_ne_true)]
      simp only [Bool.false_eq_true, false_iff] at h
      constructor
      · intro hcontra
        exact absurd hcontra (by simp)
      · intro hex
        exact absurd hex h
    · rw [he] at h
      simp only [onRecvData, he, if_pos rfl]
      simp only [true_iff] at h
      exact ⟨fun _ => h, fun _ => rfl⟩

/-- Witness for C1: a callback that consumes 3 bytes of a 10-byte batch and
then returns -1 drains exactly 3 bytes and leaves the connection
kDisconnected. -/
theorem claim_C1_recv_batch_witness :
    (((onRecvData State.kConnected cbFatalAfter3 10).trace.filter (fun c => 0 < c)).sum
        = ((onRecvData State.kConnected cbFatalAfter3 10).drained : Int))
    ∧ (onRecvData State.kConnected cbFatalAfter3 10).state = State.kDisconnected := by
  have h := claim_C1_recv_batch cbFatalAfter3 10
  refine ⟨h.1, h.2.2.mpr ⟨-1, ?_, by norm_num⟩⟩
  have h10 : onRecvData State.kConnected cbFatalAfter3 10
      = ⟨State.kDisconnected, 3, [3, -1]⟩ := by
    rw [onRecvData]
    rw [consumeLoop, consumeLoop]
    norm_num [cbFatalAfter3]
    decide
  rw [h10]
  rfl

/-! ## Theorems: connection state machine (C2) -/

/-- One step from a terminal state either aborts on an assertion or leaves
the connection unchanged, delivering at most an on_message callback (the
framing callback still fires for arriving data, with no state guard). -/
theorem step_from_terminal :
    ∀ (c : Conn) (e : ConnEvent), isTerminal c.state = true
      → step c e = none ∨ step c e = some (c, [])
        ∨ step c e = some (c, [Callback.onMessage]) := by decide

/-- Per-step callback accounting: a successful step delivers at most one
terminal callback, and delivers one only when it moves the connection into a
terminal state. -/
theorem step_cb_budget : ∀ (c : Conn) (e : ConnEvent), stepBudgetOk c e = true := by decide

/-- Per-step preservation of the deregistration invariant: if a terminal
connection is unregistered before the step, it is after. -/
theorem step_registered_inv : ∀ (c : Conn) (e : ConnEvent), stepRegInvOk c e = true := by
  decide

/-- Unfolding of connInvOk as an implication. -/
theorem connInvOk_iff (c : Conn) :
    connInvOk c = true ↔ (isTerminal c.state = true → c.registered = false) := by
  revert c; decide

/-- Terminal states are absorbing for state and registration: any event run
from a terminal state leaves the connection unchanged, and the only user
callback it can still deliver is on_message. -/
theorem run_from_terminal (es : List ConnEvent) :
    ∀ (c : Conn), isTerminal c.state = true
      → (run c es).1 = c ∧ ∀ cb ∈ (run c es).2, cb = Callback.onMessage := by
  induction es with
  | nil =>
    intro c _
    exact ⟨rfl, by simp [run]⟩
  | cons e es ih =>
    intro c hterm
    rcases step_from_terminal c e hterm with h | h | h
    · simp [run, h]
    · simp only [run, h]
      exact ⟨(ih c hterm).1, by simpa using (ih c hterm).2⟩
    · simp only [run, h]
      refine ⟨(ih c hterm).1, ?_⟩
      intro cb hcb
      rcases List.mem_cons.mp (by simpa using hcb) with h1 | h2
      · exact h1
      · exact (ih c hterm).2 cb h2

/-- Any run delivers at most one terminal callback; none at all if it starts
in a terminal state. -/
theorem run_cb_budget (es : List ConnEvent) :
    ∀ (c : Conn),
      termCbCount (run c es).2 ≤ (if isTerminal c.state = true then 0 else 1) := by
  induction es with
  | nil => intro c; simp [run, termCbCount]
  | cons e es ih =>
    intro c
    have hb := step_cb_budget c e
    rcases hs : step c e with _ | ⟨c', cbs⟩
    · simp [run, hs, termCbCount]
    · simp only [stepBudgetOk, hs, decide_eq_true_eq] at hb
      have hr := ih c'
      simp only [run, hs]
      have hsplit : termCbCount (cbs ++ (run c' es).2)
          = termCbCount cbs + termCbCount (run c' es).2 := by
        simp [termCbCount, List.count_append]
        omega
      rw [hsplit]
      omega

/-- The deregistration invariant is preserved by whole runs. -/
theorem run_registered_inv (es : List ConnEvent) :
    ∀ (c : Conn), (isTerminal c.state = true → c.registered = false)
      → isTerminal (run c es).1.state = true → (run c es).1.registered = false := by
  induction es with
  | nil => intro c h; simpa [run] using h
  | cons e es ih =>
    intro c h
    have hp := step_registered_inv c e
    rcases hs : step c e with _ | ⟨c', cbs⟩
    · simpa [run, hs] using h
    · simp only [stepRegInvOk, hs, Bool.or_eq_true, Bool.not_eq_true'] at hp
      rcases hp with hp | hp
      · exact absurd ((connInvOk_iff c).mpr h) (by simp [hp])
      · simp only [run, hs]
        exact ih c' ((connInvOk_iff c').mp hp)

/-- Counterexample to C2: an accepted connection disconnected by peer EOF is
in a terminal state, yet a further receive batch (data arriving while the
user still holds the object; OnRecvData has no state guard and read stays
bufferevent-enabled until the destructor) delivers the user callback
on_message, so post-terminal runs are not free of user callbacks as the
claim states. -/
theorem claim_C2_counterexample :
    isTerminal (run initConn [ConnEvent.accept, ConnEvent.osEvent false true]).1.state
        = true
    ∧ (run (run initConn [ConnEvent.accept, ConnEvent.osEvent false true]).1
        [ConnEvent.recvBatch false]).2 = [Callback.onMessage]
    ∧ run (run initConn [ConnEvent.accept, ConnEvent.osEvent false true]).1
        [ConnEvent.recvBatch false]
        ≠ ((run initConn [ConnEvent.accept, ConnEvent.osEvent false true]).1, []) := by
  decide

/-- C2 amended: for every event sequence from a fresh connection, at most
one of on_disconnect / on_connect_fail is delivered in total (hence each at
most once and never both); whenever the connection has reached a terminal
state it is unregistered from its loop; and from a terminal state no further
state transition occurs and no further on_new_conn / on_disconnect /
on_connect_fail is delivered — the only user callback that can still fire is
on_message, for data arriving while the user keeps the object alive. -/
theorem claim_C2_terminal_amended (es : List ConnEvent) :
    termCbCount (run initConn es).2 ≤ 1
    ∧ (isTerminal (run initConn es).1.state = true
        → (run initConn es).1.registered = false)
    ∧ (∀ es2, isTerminal (run initConn es).1.state = true
        → (run (run initConn es).1 es2).1 = (run initConn es).1
          ∧ ∀ cb ∈ (run (run initConn es).1 es2).2, cb = Callback.onMessage) := by
  refine ⟨?_, ?_, ?_⟩
  · have h := run_cb_budget es initConn
    have : (if isTerminal initConn.state = true then 0 else 1) ≤ 1 := by
      split <;> omega
    omega
  · exact run_registered_inv es initConn (by decide)
  · intro es2 hterm
    exact run_from_terminal es2 _ hterm

/-- Witness for C2 amended: an accepted connection that then sees peer EOF
delivers exactly one on_disconnect, ends Disconnected and unregistered, and
a later fatal receive batch changes nothing about its state. -/
theorem claim_C2_terminal_amended_witness :
    termCbCount (run initConn [ConnEvent.accept, ConnEvent.osEvent false true]).2 ≤ 1
    ∧ (run initConn [ConnEvent.accept, ConnEvent.osEvent false true]).1.registered = false
    ∧ (run (run initConn [ConnEvent.accept, ConnEvent.osEvent false true]).1
        [ConnEvent.recvBatch true]).1
        = (run initConn [ConnEvent.accept, ConnEvent.osEvent false true]).1 := by
  have h := claim_C2_terminal_amended [ConnEvent.accept, ConnEvent.osEvent false true]
  exact ⟨h.1, h.2.1 (by decide), (h.2.2 [ConnEvent.recvBatch true] (by decide)).1⟩


/-! ## Theorems: Execute contract (C3) -/

/-- C3: Execute on the loop's own thread runs the closure synchronously and
returns an already-fulfilled future carrying its result, leaving the inbox
untouched; from any other thread it appends the packaged task to the inbox,
kicks the notifier, and returns a future tied to that inbox slot, which
resolves to the closure's value once the loop drains its inbox; the drain
runs all inbox tasks in FIFO order before the reactor poll of the same
iteration and leaves the inbox empty. -/
theorem claim_C3_execute_contract (f : Nat → Nat) (x : Nat) (ls : LoopState) :
    (execute true f x ls = (ls, ExecResult.ready (f x)))
    ∧ ((execute false f x ls).1.tasks = ls.tasks ++ [PTask.mk f x])
    ∧ ((execute false f x ls).1.notified = true)
    ∧ ((execute false f x ls).2 = ExecResult.pending ls.tasks.length)
    ∧ (futureValueAfterDrain (execute false f x ls).1 ls.tasks.length = some (f x))
    ∧ ((runIteration true (execute false f x ls).1).2
        = ((ls.tasks ++ [PTask.mk f x]).map (fun t => LoopAction.ranTask (t.fn t.arg)))
          ++ [LoopAction.polled])
    ∧ ((runIteration true (execute false f x ls).1).1.tasks = []) := by
  refine ⟨rfl, rfl, rfl, rfl, ?_, rfl, rfl⟩
  simp [futureValueAfterDrain, execute]

/-! ## Theorems: off-thread schedule/cancel race (C4) -/

/-- Keys of a timer map that does not contain an id all differ from it. -/
theorem timersContains_false_forall (ts : Timers) (id : Int)
    (h : timersContains ts id = false) : ∀ p ∈ ts, p.1 ≠ id := by
  intro p hp
  simp only [timersContains] at h
  rw [List.any_eq_false] at h
  have hq := h p hp
  simpa using hq

/-- Filtering out an unarmed id is the identity on the timer map. -/
theorem timersContains_false_filter (ts : Timers) (id : Int)
    (h : timersContains ts id = false) : ts.filter (fun p => p.1 ≠ id) = ts := by
  rw [List.filter_eq_self]
  intro p hp
  simpa using timersContains_false_forall ts id h p hp

/-- C4: when ScheduleLater is posted off-thread and Cancel(id) is posted
from the same thread before the drain, the drain runs the arming task first
(FIFO) and then the cancel task, which finds the timer armed, removes it,
and returns true; the timer id is no longer armed afterwards, so no poll can
ever fire the scheduled closure. -/
theorem claim_C4_cancel_race (ts : Timers) (id d : Int)
    (h : timersContains ts id = false) :
    ((drainLoopTasks ts [LoopTask.armLater id d, LoopTask.cancelTimer id]).2
        = [none, some true])
    ∧ ((drainLoopTasks ts [LoopTask.armLater id d, LoopTask.cancelTimer id]).1 = ts)
    ∧ (id ∉ pollableIds
        (drainLoopTasks ts [LoopTask.armLater id d, LoopTask.cancelTimer id]).1) := by
  have harm : reactorSchedule ts id d false = ts ++ [(id, RTimer.mk d false)] := by
    simp [reactorSchedule, timersSet, h]
  have hcontains : timersContains (ts ++ [(id, RTimer.mk d false)]) id = true := by
    simp [timersContains]
  have hfilter : (ts ++ [(id, RTimer.mk d false)]).filter (fun p => p.1 ≠ id) = ts := by
    rw [List.filter_append]
    rw [timersContains_false_filter ts id h]
    simp
  have hdrain : drainLoopTasks ts [LoopTask.armLater id d, LoopTask.cancelTimer id]
      = (ts, [none, some true]) := by
    simp only [drainLoopTasks, runLoopTask, harm, reactorCancel, hcontains, if_pos,
      hfilter]
  refine ⟨by rw [hdrain], by rw [hdrain], ?_⟩
  rw [hdrain]
  simp only [pollableIds, List.mem_map, not_exists]
  rintro p ⟨hp, hpid⟩
  exact timersContains_false_forall ts id h p hp hpid

/-- Witness for C4: an empty reactor, timer id 7, delay 50 ms. -/
theorem claim_C4_cancel_race_witness :
    timersContains [] 7 = false
    ∧ ((drainLoopTasks [] [LoopTask.armLater 7 50, LoopTask.cancelTimer 7]).2
        = [none, some true])
    ∧ ((drainLoopTasks [] [LoopTask.armLater 7 50, LoopTask.cancelTimer 7]).1 = [])
    ∧ (7 ∉ pollableIds
        (drainLoopTasks [] [LoopTask.armLater 7 50, LoopTask.cancelTimer 7]).1) := by
  have h := claim_C4_cancel_race [] 7 50 (by decide)
  exact ⟨by decide, h.1, h.2.1, h.2.2⟩

/-! ## Theorems: send contract (C5) -/

/-- C5: SendPacket in state kConnected appends the payload to the output
buffer and returns true; in every other state it returns false and leaves
the buffer untouched; the vectored SendPacket obeys the same contract with
the concatenation of the io vectors as payload. -/
theorem claim_C5_send_contract (st : State) (data : List Nat)
    (iovecs : List (List Nat)) (output : List Nat) :
    (st = State.kConnected → sendPacket st data output = (true, output ++ data))
    ∧ (st ≠ State.kConnected → sendPacket st data output = (false, output))
    ∧ (st = State.kConnected
        → sendPacketIovec st iovecs output = (true, output ++ iovecs.flatten))
    ∧ (st ≠ State.kConnected → sendPacketIovec st iovecs output = (false, output)) := by
  refine ⟨?_, ?_, ?_, ?_⟩
  · intro hst
    subst hst
    rcases data with _ | ⟨b, bs⟩
    · simp [sendPacket]
    · simp [sendPacket]
  · intro hst
    simp [sendPacket, hst]
  · intro hst
    subst hst
    rcases iovecs with _ | ⟨v, vs⟩
    · simp [sendPacketIovec]
    · simp [sendPacketIovec]
  · intro hst
    simp [sendPacketIovec, hst]

/-- Witness for C5: a two-byte payload is appended in kConnected and
rejected in kConnecting. -/
theorem claim_C5_send_contract_witness :
    sendPacket State.kConnected [10, 20] [1] = (true, [1, 10, 20])
    ∧ sendPacket State.kConnecting [10, 20] [1] = (false, [1])
    ∧ sendPacketIovec State.kConnected [[10], [20]] [1] = (true, [1, 10, 20])
    ∧ sendPacketIovec State.kFailed [[10], [20]] [1] = (false, [1]) := by
  have h1 := claim_C5_send_contract State.kConnected [10, 20] [[10], [20]] [1]
  have h2 := claim_C5_send_contract State.kConnecting [10, 20] [[10], [20]] [1]
  have h3 := claim_C5_send_contract State.kFailed [10, 20] [[10], [20]] [1]
  refine ⟨?_, h2.2.1 (by decide), ?_, h3.2.2.2 (by decide)⟩
  · have := h1.1 rfl
    simpa using this
  · have := h1.2.2.1 rfl
    simpa using this


/-! ## Theorems: reactor registration with zero mask (C6) -/

/-- Counterexample to C6: registering with event mask 0 into an empty
reactor succeeds but leaves the registration map empty (the object is not
tracked), and re-registering an already-tracked object with mask 0 also
succeeds instead of failing. -/
theorem claim_C6_counterexample :
    ((reactorRegister [] 0 0).1 = true ∧ (reactorRegister [] 0 0).2 = [])
    ∧ ((reactorRegister [(7, RObject.mk true false)] 7 0).1 = true) := by decide

/-- C6 amended: register with event mask 0 always returns true, installs no
OS watches, and does not track the object (the registration map is
unchanged, even when the object is already registered); with a nonzero mask,
register fails exactly when the object is already registered, and otherwise
tracks it with the watches requested by the mask. -/
theorem claim_C6_register_amended (objs : RObjects) (id : Int) (events : Nat) :
    (events = 0 → reactorRegister objs id events = (true, objs))
    ∧ (events ≠ 0 → robjectsContains objs id = true
        → reactorRegister objs id events = (false, objs))
    ∧ (events ≠ 0 → robjectsContains objs id = false
        → reactorRegister objs id events
            = (true, objs ++ [(id, RObject.mk ((events &&& kEventRead) ≠ 0)
                ((events &&& kEventWrite) ≠ 0))])) := by
  refine ⟨?_, ?_, ?_⟩
  · intro h0
    simp [reactorRegister, h0]
  · intro h0 hin
    simp [reactorRegister, h0, hin]
  · intro h0 hin
    simp [reactorRegister, h0, hin]

/-- Witness for C6 amended: a nonzero read-mask registration of a fresh id
tracks it with only a read watch; a duplicate then fails. -/
theorem claim_C6_register_amended_witness :
    reactorRegister [] 5 kEventRead = (true, [(5, RObject.mk true false)])
    ∧ reactorRegister [(5, RObject.mk true false)] 5 kEventRead
        = (false, [(5, RObject.mk true false)])
    ∧ reactorRegister [(5, RObject.mk true false)] 5 0
        = (true, [(5, RObject.mk true false)]) := by
  have h1 := claim_C6_register_amended [] 5 kEventRead
  have h2 := claim_C6_register_amended [(5, RObject.mk true false)] 5 kEventRead
  have h3 := claim_C6_register_amended [(5, RObject.mk true false)] 5 0
  refine ⟨?_, h2.2.1 (by decide) (by decide), h3.1 (by decide)⟩
  have := h1.2.2 (by decide) (by decide)
  simpa using this

/-! ## Theorems: timer period clamping (C7) -/

/-- Total armed microseconds equal 1000 times the millisecond argument the
reactor receives (C truncated division identity). -/
theorem timeoutTotalUs_scheduleTimeout (ms : Int) :
    timeoutTotalUs (scheduleTimeout ms) = 1000 * ms := by
  have h := Int.tdiv_add_tmod ms 1000
  simp only [timeoutTotalUs, scheduleTimeout]
  omega

/-- Counterexample to C7: the int-millisecond overloads forward the value to
the reactor unclamped, so ScheduleLater(0) and ScheduleRepeatedly(0) arm a
zero timeout, below the claimed 1 ms minimum; and even through the
chrono-duration overload, a duration of 2^31 milliseconds wraps negative in
the static_cast<int> narrowing and arms a sub-1-ms (negative) timeout. -/
theorem claim_C7_counterexample :
    timeoutTotalUs (loopScheduleLaterMs 0) = 0
    ∧ timeoutTotalUs (loopScheduleRepeatedlyMs 0) = 0
    ∧ ¬ (1000 ≤ timeoutTotalUs (loopScheduleLaterMs 0))
    ∧ ¬ (1000 ≤ timeoutTotalUs (loopScheduleLaterDur (2 ^ 31 * 1000))) := by decide

/-- C7 amended: the chrono-duration overloads of ScheduleLater and
ScheduleRepeatedly clamp the converted millisecond value up to at least 1 ms
(any duration below 1 ms becomes exactly 1 ms) and then narrow the count to
a signed 32-bit int, so the armed timeout is at least 1000 microseconds
whenever the clamped count fits in an int (below 2^31 ms); counts of 2^31 ms
or more wrap negative in the narrowing and arm below 1 ms; the
int-millisecond overloads forward their argument to the reactor with no
clamping (armed microseconds are exactly 1000 times the argument). -/
theorem claim_C7_clamp_amended (us : Nat) (ms : Int) :
    1 ≤ clampedMs us
    ∧ (us < 1000 → clampedMs us = 1)
    ∧ (clampedMs us < 2 ^ 31 → 1000 ≤ timeoutTotalUs (loopScheduleLaterDur us))
    ∧ (clampedMs us < 2 ^ 31 → 1000 ≤ timeoutTotalUs (loopScheduleRepeatedlyDur us))
    ∧ timeoutTotalUs (loopScheduleLaterMs ms) = 1000 * ms
    ∧ timeoutTotalUs (loopScheduleRepeatedlyMs ms) = 1000 * ms := by
  have hclamp : 1 ≤ clampedMs us := le_max_left 1 (durationCastMs us)
  have hfit : clampedMs us < 2 ^ 31
      → wrap32 ((clampedMs us : Int)) = (clampedMs us : Int) := by
    intro h
    have h1 : (1 : Int) ≤ (clampedMs us : Int) := by exact_mod_cast hclamp
    have h2 : ((clampedMs us : Int)) < 2 ^ 31 := by exact_mod_cast h
    simp only [wrap32]
    omega
  have hlater : clampedMs us < 2 ^ 31
      → timeoutTotalUs (loopScheduleLaterDur us) = 1000 * (clampedMs us : Int) := by
    intro h
    simp only [loopScheduleLaterDur, loopScheduleLaterMs, hfit h]
    exact timeoutTotalUs_scheduleTimeout ((clampedMs us : Int))
  refine ⟨hclamp, ?_, ?_, ?_, timeoutTotalUs_scheduleTimeout ms,
    timeoutTotalUs_scheduleTimeout ms⟩
  · intro hus
    have : durationCastMs us = 0 := by
      simp only [durationCastMs]
      omega
    simp [clampedMs, this]
  · intro h
    rw [hlater h]
    have : (1 : Int) ≤ (clampedMs us : Int) := by exact_mod_cast hclamp
    omega
  · intro h
    rw [show loopScheduleRepeatedlyDur us = loopScheduleLaterDur us from rfl, hlater h]
    have : (1 : Int) ≤ (clampedMs us : Int) := by exact_mod_cast hclamp
    omega

/-- Witness for C7 amended: a 500 microsecond duration is clamped to 1 ms
(which fits in an int, so at least 1 ms is armed); the int overload called
with 7 arms exactly 7000 microseconds. -/
theorem claim_C7_clamp_amended_witness :
    clampedMs 500 = 1
    ∧ 1000 ≤ timeoutTotalUs (loopScheduleLaterDur 500)
    ∧ timeoutTotalUs (loopScheduleLaterMs 7) = 1000 * 7 := by
  have h := claim_C7_clamp_amended 500 7
  exact ⟨h.2.1 (by decide), h.2.2.1 (by decide), h.2.2.2.2.1⟩

/-! ## Theorems: identity generation (C8) -/

/-- Counterexample to C8: at the wrap point the timer-id counter hands out a
negative id and does not reset to zero (no skip of ids in use either);
timer-id allocation has none of the wrap machinery the claim describes. -/
theorem claim_C8_counterexample :
    (allocTimerId (2 ^ 63 - 1)).2 = -(2 ^ 63)
    ∧ (allocTimerId (2 ^ 63 - 1)).2 < 0
    ∧ (allocTimerId (2 ^ 63 - 1)).1 ≠ 0 := by
  refine ⟨?_, ?_, ?_⟩ <;> norm_num [allocTimerId, wrap64]

/-- C8 amended: object unique-ids and timer-ids come from separate counters.
The object-id allocator loops: on wrap to a negative value it resets the
counter to zero and it skips any id currently in use, so every id it hands
out is non-negative and distinct from all live ids in the loop.  The
timer-id counter is a bare increment with no wrap reset and no in-use check;
its ids are distinct only while the counter has not wrapped (below the
wrap point it is exactly c + 1). -/
theorem claim_C8_ids_amended :
    (∀ (fuel : Nat) (c : Int) (inUse : List Int) (res : Int × Int),
      allocObjId fuel c inUse = some res → 0 ≤ res.2 ∧ res.2 ∉ inUse)
    ∧ (∀ c : Int, -(2 ^ 63) ≤ c → c + 1 < 2 ^ 63 → allocTimerId c = (c + 1, c + 1)) := by
  constructor
  · intro fuel
    induction fuel with
    | zero => intro c inUse res h; simp [allocObjId] at h
    | succ n ih =>
      intro c inUse res h
      rw [allocObjId] at h
      by_cases hcase : wrap32 (c + 1) < 0 ∨ wrap32 (c + 1) ∈ inUse
      · rw [if_pos hcase] at h
        exact ih _ inUse res h
      · rw [if_neg hcase] at h
        push_neg at hcase
        cases h
        exact ⟨hcase.1, hcase.2⟩
  · intro c hlo hhi
    have : wrap64 (c + 1) = c + 1 := by
      simp only [wrap64]
      omega
    simp [allocTimerId, this]

/-- Witness for C8 amended: starting at the 32-bit wrap point with id 1 in
use, the object-id allocator resets to zero, skips 1, and returns the fresh
non-negative id 2; a timer id below the wrap point increments plainly. -/
theorem claim_C8_ids_amended_witness :
    allocObjId 3 (2 ^ 31 - 1) [1] = some (2, 2)
    ∧ (0 ≤ (2 : Int) ∧ (2 : Int) ∉ ([1] : List Int))
    ∧ allocTimerId 5 = (6, 6) := by
  have hrun : allocObjId 3 (2 ^ 31 - 1) [1] = some (2, 2) := by decide
  exact ⟨hrun, claim_C8_ids_amended.1 3 (2 ^ 31 - 1) [1] (2, 2) hrun,
    claim_C8_ids_amended.2 5 (by norm_num) (by norm_num)⟩

/-! ## Theorems: idle timeout (C9) -/

/-- Counterexample to C9: at elapsed exactly equal to the threshold
(200 ms), the idle check does not invoke ActiveClose although
elapsed >= threshold holds; the source comparison is strict. -/
theorem claim_C9_counterexample :
    ¬ (idleTimerFire true 200 200 = true ↔ (200 : Int) ≥ 200) := by decide

/-- C9 amended: set_idle_timeout(ms) with ms > 0 stores the threshold,
cancels the prior idle timer exactly when one exists, and arms a repeating
check with period 100 ms; a fire invokes active_close(sync=false) exactly
when the connection is still alive and now - last_active is strictly
greater than the configured threshold. -/
theorem claim_C9_idle_amended (cfg : IdleConfig) (t fid e th : Int) (alive : Bool) :
    (0 < t → setIdleTimeout cfg t fid
        = (IdleConfig.mk fid t,
           (if cfg.idleTimer ≠ -1 then some cfg.idleTimer else none), some 100))
    ∧ (t ≤ 0 → setIdleTimeout cfg t fid = (cfg, none, none))
    ∧ (idleTimerFire alive e th = true ↔ (alive = true ∧ th < e)) := by
  refine ⟨?_, ?_, ?_⟩
  · intro ht
    simp [setIdleTimeout, not_le.mpr ht]
  · intro ht
    simp [setIdleTimeout, ht]
  · simp [idleTimerFire, checkIdleTimeout, Bool.and_eq_true, decide_eq_true_eq]

/-- Witness for C9 amended: resetting a 300 ms timeout to 200 ms cancels the
prior timer 5 and arms a 100 ms repeating check; a fire at 201 ms elapsed
with threshold 200 closes, one at 200 ms does not. -/
theorem claim_C9_idle_amended_witness :
    setIdleTimeout (IdleConfig.mk 5 300) 200 9 = (IdleConfig.mk 9 200, some 5, some 100)
    ∧ idleTimerFire true 201 200 = true
    ∧ idleTimerFire true 200 200 = false := by
  have h := claim_C9_idle_amended (IdleConfig.mk 5 300) 200 9 201 200 true
  refine ⟨?_, h.2.2.mpr ⟨rfl, by norm_num⟩, by decide⟩
  have h1 := h.1 (by norm_num)
  simpa using h1

/-! ## Theorems: connect failure path (C10) -/

/-- C10: EventLoop::Connect returns a null handle exactly when one of the
immediate initiation steps fails (bufferevent creation, the OS connect call,
or loop registration), and in every such failure case the loop's object
registry is left unchanged (no connection object remains registered). -/
theorem claim_C10_connect_failure (env : ConnectEnv) (objs : List Int) (freshId : Int) :
    ((eventLoopConnect env objs freshId).1 = none
        ↔ ¬ (env.bevOk = true ∧ env.connectOk = true ∧ env.reactorAlive = true))
    ∧ ((eventLoopConnect env objs freshId).1 = none
        → (eventLoopConnect env objs freshId).2 = objs) := by
  rcases env with ⟨b, c, r⟩
  cases b <;> cases c <;> cases r <;>
    simp [eventLoopConnect, tcpConnect]

/-- Witness for C10: a failing OS connect call yields a null handle and
leaves the registry [3] unchanged. -/
theorem claim_C10_connect_failure_witness :
    (eventLoopConnect (ConnectEnv.mk true false true) [3] 9).1 = none
    ∧ (eventLoopConnect (ConnectEnv.mk true false true) [3] 9).2 = [3] := by
  have h := claim_C10_connect_failure (ConnectEnv.mk true false true) [3] 9
  have hnone : (eventLoopConnect (ConnectEnv.mk true false true) [3] 9).1 = none :=
    h.1.mpr (by simp)
  exact ⟨hnone, h.2 hnone⟩


end PikiwidbNet
